import Mathlib

/-!
# Verification of the `mesh_service` geometry core

A shallow embedding of `backend/services/mesh_service.py` (functions
`_convert_to_stl_sync`, `_optimize_mesh_sync`, `check_printability`,
`scale_model`) together with the semantics of the `trimesh` library calls
they make.  Coordinates are modelled as exact rationals (the Python code
uses IEEE floats; "within floating-point tolerance" statements become exact
equalities over `ℚ`).  File I/O is modelled by making the loaded object an
explicit input and the exported mesh an explicit output: a function's
returned mesh is exactly what it serializes, and an `Except`-error /
`none` result means no file is written.
-/

namespace MeshService

/-- A 3D point / vector with rational coordinates. -/
@[ext]
structure Vec3 where
  x : ℚ
  y : ℚ
  z : ℚ
deriving DecidableEq

/-- The unified in-memory mesh representation: an ordered vertex buffer and
triangular faces given as triples of vertex indices (the `trimesh.Trimesh`
data that `mesh_service` manipulates). -/
structure Mesh where
  vertices : List Vec3
  faces : List (ℕ × ℕ × ℕ)
deriving DecidableEq

/-- Minimum of a list of rationals (0 for the empty list; the Python code
never takes bounds of an empty vertex buffer). -/
def listMin : List ℚ → ℚ
  | [] => 0
  | a :: l => l.foldl min a

/-- Maximum of a list of rationals (0 for the empty list). -/
def listMax : List ℚ → ℚ
  | [] => 0
  | a :: l => l.foldl max a

/-- Lower corner of the axis-aligned bounding box of a vertex buffer
(`mesh.bounds[0]` in trimesh). -/
def loCorner (vs : List Vec3) : Vec3 :=
  ⟨listMin (vs.map Vec3.x), listMin (vs.map Vec3.y), listMin (vs.map Vec3.z)⟩

/-- Upper corner of the axis-aligned bounding box (`mesh.bounds[1]`). -/
def hiCorner (vs : List Vec3) : Vec3 :=
  ⟨listMax (vs.map Vec3.x), listMax (vs.map Vec3.y), listMax (vs.map Vec3.z)⟩

/-- Bounding-box extents of a vertex buffer: `bounds[1] - bounds[0]`. -/
def extentsOf (vs : List Vec3) : Vec3 :=
  ⟨(hiCorner vs).x - (loCorner vs).x,
   (hiCorner vs).y - (loCorner vs).y,
   (hiCorner vs).z - (loCorner vs).z⟩

/-- Bounding-box extents of a mesh (`mesh.bounds[1] - mesh.bounds[0]`,
the `dimensions` the service reports). -/
def extents (m : Mesh) : Vec3 := extentsOf m.vertices

/-- `max_dim = np.max(bounds[1] - bounds[0])`: the largest bounding-box
extent. -/
def maxDim (m : Mesh) : ℚ :=
  max (max (extents m).x (extents m).y) (extents m).z

/-- `mesh.apply_scale(c)` (trimesh): every vertex coordinate is multiplied
by `c`; a transform with negative determinant additionally flips the
winding of every face (`np.fliplr(faces)`), which for a uniform scale
happens exactly when `c < 0`. -/
def applyScale (m : Mesh) (c : ℚ) : Mesh :=
  { vertices := m.vertices.map (fun v => ⟨c * v.x, c * v.y, c * v.z⟩)
    faces := if c < 0 then m.faces.map (fun f => (f.2.2, f.2.1, f.1)) else m.faces }

/-- `mesh.vertices += t`: translate every vertex by `t`. -/
def translate (m : Mesh) (t : Vec3) : Mesh :=
  { m with vertices := m.vertices.map (fun v => ⟨v.x + t.x, v.y + t.y, v.z + t.z⟩) }

/-- `mesh.centroid` modelled as the mean of the vertex buffer.  (trimesh
weights triangle centroids by area; every property proved below — the
code translates by `-centroid` and the result is centered — only uses
that the centroid is translation-equivariant, which holds for both
definitions.) -/
def centroid (m : Mesh) : Vec3 :=
  let n : ℚ := m.vertices.length
  ⟨(m.vertices.map Vec3.x).sum / n,
   (m.vertices.map Vec3.y).sum / n,
   (m.vertices.map Vec3.z).sum / n⟩

/-- Componentwise negation. -/
def vneg (v : Vec3) : Vec3 := ⟨-v.x, -v.y, -v.z⟩

/-- The conditional scaling step of `_convert_to_stl_sync` (lines 66–72):
scale uniformly by `50 / max_dim` so the largest bounding-box extent
becomes the 50 mm print target, skipped when `max_dim` is not
positive. -/
def scaleStep (m : Mesh) : Mesh :=
  if 0 < maxDim m then applyScale m (50 / maxDim m) else m

/-- The normalization body of `_convert_to_stl_sync` (lines 66–75): the
conditional scaling step, then `mesh.vertices -= mesh.centroid`. -/
def normalize (m : Mesh) : Mesh :=
  translate (scaleStep m) (vneg (centroid (scaleStep m)))

/-- One named sub-object of a parsed scene: either a `trimesh.Trimesh`
triangulated surface, or something else (points / curves / cameras /
lights), which the loader discards. -/
inductive Geometry where
  | triMesh (m : Mesh)
  | other
deriving DecidableEq

/-- What `trimesh.load` returned in `_convert_to_stl_sync`: a multi-object
`trimesh.Scene` (its `geometry` values in iteration order) or a single
`trimesh.Trimesh`. -/
inductive Loaded where
  | scene (geoms : List Geometry)
  | single (m : Mesh)

/-- The fatal error of `_convert_to_stl_sync`: the `ValueError`
(`"场景中没有有效的网格几何体"`) raised when a scene holds no usable
triangulated geometry — the spec's `EmptySceneError`. -/
inductive ConvError where
  | emptySceneError
deriving DecidableEq

/-- The scene-flattening filter: keep exactly the sub-objects that are
`trimesh.Trimesh` instances. -/
def validMeshes : List Geometry → List Mesh
  | [] => []
  | Geometry.triMesh m :: rest => m :: validMeshes rest
  | Geometry.other :: rest => validMeshes rest

/-- `trimesh.util.concatenate`: append the vertex buffers and append the
face buffers with each mesh's face indices offset by the number of
vertices that precede it. -/
def concatenate : List Mesh → Mesh
  | [] => ⟨[], []⟩
  | m :: rest =>
    let r := concatenate rest
    ⟨m.vertices ++ r.vertices,
     m.faces ++ r.faces.map (fun f =>
       (f.1 + m.vertices.length, f.2.1 + m.vertices.length, f.2.2 + m.vertices.length))⟩

/-- The Mesh face-index invariant: every index of every face is strictly
below the vertex count. -/
def facesValid (m : Mesh) : Bool :=
  m.faces.all (fun f =>
    f.1 < m.vertices.length && f.2.1 < m.vertices.length && f.2.2 < m.vertices.length)

/-- `_convert_to_stl_sync` after loading: flatten a scene (raising on an
empty one), normalize, and export.  `.ok m` means exactly `m` was
serialized to the output path; `.error` means the exception propagated
and no output file was produced. -/
def convert_to_stl_sync : Loaded → Except ConvError Mesh
  | Loaded.scene gs =>
    match validMeshes gs with
    | [] => Except.error ConvError.emptySceneError
    | g :: rest => Except.ok (normalize (concatenate (g :: rest)))
  | Loaded.single m => Except.ok (normalize m)

/-- The output file produced by a conversion outcome: `none` when the
error propagated before `mesh.export` ran. -/
def outputOf : Except ConvError Mesh → Option Mesh
  | Except.ok m => some m
  | Except.error _ => none

/-! ## Derived topological properties (trimesh semantics) -/

/-- The directed edges of all faces: each face `(a, b, c)` contributes
`(a,b)`, `(b,c)`, `(c,a)` (trimesh `mesh.edges`). -/
def directedEdges (m : Mesh) : List (ℕ × ℕ) :=
  m.faces.flatMap (fun f => [(f.1, f.2.1), (f.2.1, f.2.2), (f.2.2, f.1)])

/-- An edge with its endpoints sorted (trimesh `edges_sorted`). -/
def sortEdge (e : ℕ × ℕ) : ℕ × ℕ :=
  if e.1 ≤ e.2 then e else (e.2, e.1)

/-- `mesh.is_watertight` (trimesh `graph.is_watertight`): every undirected
edge occurs in exactly two faces. -/
def is_watertight (m : Mesh) : Bool :=
  let es := (directedEdges m).map sortEdge
  es.all (fun e => es.count e == 2)

/-- `mesh.is_winding_consistent`: every undirected edge shared by exactly
two faces is traversed by them in opposite directions (so no directed
edge of such a pair repeats). -/
def is_winding_consistent (m : Mesh) : Bool :=
  let des := directedEdges m
  let ses := des.map sortEdge
  des.all (fun d => !(ses.count (sortEdge d) == 2) || des.count d == 1)

/-- Vertex lookup with a default, mirroring the array indexing that the
derived properties perform on (always in-range) face indices. -/
def vtx (m : Mesh) (i : ℕ) : Vec3 := m.vertices.getD i ⟨0, 0, 0⟩

/-- The scalar triple product `a · (b × c)`. -/
def tripleProduct (a b c : Vec3) : ℚ :=
  a.x * (b.y * c.z - b.z * c.y)
    - a.y * (b.x * c.z - b.z * c.x)
    + a.z * (b.x * c.y - b.y * c.x)

/-- `mesh.volume`: the signed enclosed volume by the divergence theorem,
one signed tetrahedron per face. -/
def volume (m : Mesh) : ℚ :=
  (m.faces.map (fun f => tripleProduct (vtx m f.1) (vtx m f.2.1) (vtx m f.2.2))).sum / 6

/-! ## `check_printability` -/

/-- The report dictionary built by `check_printability` (lines 162–174);
`volume_mm3` is `Option`-valued because the Python value is
`mesh.volume if mesh.is_watertight else None`. -/
structure PrintReport where
  is_watertight : Bool
  is_winding_consistent : Bool
  volume_mm3 : Option ℚ
  dimensions_mm : Vec3
  face_count : ℕ
  vertex_count : ℕ
  printable : Bool
deriving DecidableEq

/-- `check_printability` on a successfully loaded `trimesh.Trimesh` (the
non-Trimesh branch returns an error dictionary instead and is not part of
any report claim). -/
def check_printability (m : Mesh) : PrintReport :=
  { is_watertight := is_watertight m
    is_winding_consistent := is_winding_consistent m
    volume_mm3 := if is_watertight m then some (volume m) else none
    dimensions_mm := extents m
    face_count := m.faces.length
    vertex_count := m.vertices.length
    printable := is_watertight m && is_winding_consistent m }

/-! ## `scale_model` -/

/-- `scale_model` on the loaded mesh (lines 192–195): divide the
percentage by 100 and `apply_scale`; the scaled mesh is what gets
re-exported.  There is no validation of `scale_percent` anywhere on this
path. -/
def scale_model (m : Mesh) (scale_percent : ℚ) : Mesh :=
  applyScale m (scale_percent / 100)

/-! ## `_optimize_mesh_sync` (repair pipeline)

The five repair operations are opaque `trimesh` library calls.  Each is
modelled as `Mesh → Option Mesh`: `some m1` means the call returned
normally leaving the mesh in state `m1`, `none` means it raised (the
`except` handlers run and the mesh keeps its state from before the
call).  The pipeline is faithful to the `try`/`except` structure of
lines 112–140: one handler around the three orientation fixes, one
around the conditional hole fill, and `process` with a
`merge_vertices` / `update_faces` fallback. -/

/-- The library calls `_optimize_mesh_sync` can attempt, in source
order.  `watertight_check` is the `mesh.is_watertight` read guarding
`fill_holes`; `update_faces` is `mesh.update_faces(mesh.nondegenerate_faces())`. -/
inductive Step where
  | fix_normals
  | fix_inversion
  | fix_winding
  | watertight_check
  | fill_holes
  | process
  | merge_vertices
  | update_faces
deriving DecidableEq

/-- The behaviour of the trimesh repair calls for one run: what each call
does to the mesh, or `none` if it raises. -/
structure RepairLib where
  fix_normals : Mesh → Option Mesh
  fix_inversion : Mesh → Option Mesh
  fix_winding : Mesh → Option Mesh
  fill_holes : Mesh → Option Mesh
  process : Mesh → Option Mesh
  merge_vertices : Mesh → Option Mesh
  update_faces : Mesh → Option Mesh

/-- First `try` block (lines 113–118): `fix_normals`, `fix_inversion`,
`fix_winding` in sequence; the single `except` makes the first raising
call abort the rest of the block.  Returns the mesh state afterwards and
the calls that were executed. -/
def repairBlock1 (lib : RepairLib) (m : Mesh) : Mesh × List Step :=
  match lib.fix_normals m with
  | none => (m, [Step.fix_normals])
  | some m1 =>
    match lib.fix_inversion m1 with
    | none => (m1, [Step.fix_normals, Step.fix_inversion])
    | some m2 =>
      match lib.fix_winding m2 with
      | none => (m2, [Step.fix_normals, Step.fix_inversion, Step.fix_winding])
      | some m3 => (m3, [Step.fix_normals, Step.fix_inversion, Step.fix_winding])

/-- Second `try` block (lines 121–125): `fill_holes` only when the mesh
is not watertight. -/
def repairBlock2 (lib : RepairLib) (m : Mesh) : Mesh × List Step :=
  if is_watertight m then (m, [Step.watertight_check])
  else
    match lib.fill_holes m with
    | none => (m, [Step.watertight_check, Step.fill_holes])
    | some m1 => (m1, [Step.watertight_check, Step.fill_holes])

/-- Third `try` block (lines 129–137): `process(validate=True)`, falling
back on failure to `merge_vertices` then
`update_faces(nondegenerate_faces())` under a nested `try`. -/
def repairBlock3 (lib : RepairLib) (m : Mesh) : Mesh × List Step :=
  match lib.process m with
  | some m1 => (m1, [Step.process])
  | none =>
    match lib.merge_vertices m with
    | none => (m, [Step.process, Step.merge_vertices])
    | some m1 =>
      match lib.update_faces m1 with
      | none => (m1, [Step.process, Step.merge_vertices, Step.update_faces])
      | some m2 => (m2, [Step.process, Step.merge_vertices, Step.update_faces])

/-- What `trimesh.load(stl_path)` produced for `_optimize_mesh_sync`:
the load itself raised, a non-`Trimesh` object (the early `return` at
line 110), or a `Trimesh`. -/
inductive LoadedStl where
  | loadFail
  | notTri
  | tri (m : Mesh)

/-- The observable outcome of one `_optimize_mesh_sync` call:
the mesh written back to `stl_path` (`none` when `mesh.export` never
ran), whether an exception escaped to the caller, and which repair
library calls were executed. -/
structure OptimizeResult where
  exported : Option Mesh
  raised : Bool
  ran : List Step
deriving DecidableEq

/-- `_optimize_mesh_sync` (lines 99–140): load, early-return on a
non-Trimesh, run the three best-effort repair blocks, re-export. -/
def optimize_mesh_sync (lib : RepairLib) : LoadedStl → OptimizeResult
  | LoadedStl.loadFail => ⟨none, true, []⟩
  | LoadedStl.notTri => ⟨none, false, []⟩
  | LoadedStl.tri m =>
    let r1 := repairBlock1 lib m
    let r2 := repairBlock2 lib r1.1
    let r3 := repairBlock3 lib r2.1
    ⟨some r3.1, false, r1.2 ++ r2.2 ++ r3.2⟩

/-! ## Concrete inputs used for witnesses and counterexamples -/

/-- A mesh with no geometry at all (what an STL with zero triangles loads
to). -/
def emptyMesh : Mesh := ⟨[], []⟩

/-- A one-point mesh: the degenerate input whose bounding box has zero
extent. -/
def pointMesh : Mesh := ⟨[⟨1, 2, 3⟩], []⟩

/-- A small non-degenerate segment mesh (largest extent 5). -/
def segMesh : Mesh := ⟨[⟨0, 0, 0⟩, ⟨5, 1, 2⟩], []⟩

/-- A single valid triangle. -/
def triA : Mesh := ⟨[⟨0, 0, 0⟩, ⟨1, 0, 0⟩, ⟨0, 1, 0⟩], [(0, 1, 2)]⟩

/-- A second valid mesh: two triangles on four vertices. -/
def quadB : Mesh :=
  ⟨[⟨0, 0, 1⟩, ⟨1, 0, 1⟩, ⟨1, 1, 1⟩, ⟨0, 1, 1⟩], [(0, 1, 2), (0, 2, 3)]⟩

/-- The unit cube with one of its twelve triangles removed: the spec's
"open box" — not watertight. -/
def openBox : Mesh :=
  ⟨[⟨0, 0, 0⟩, ⟨1, 0, 0⟩, ⟨1, 1, 0⟩, ⟨0, 1, 0⟩,
    ⟨0, 0, 1⟩, ⟨1, 0, 1⟩, ⟨1, 1, 1⟩, ⟨0, 1, 1⟩],
   [(0, 2, 1), (0, 3, 2), (4, 5, 6), (4, 6, 7),
    (0, 1, 5), (0, 5, 4), (2, 3, 7), (2, 7, 6),
    (0, 4, 7), (0, 7, 3), (1, 2, 6)]⟩

/-- A repair-library behaviour in which every call returns normally and
leaves the mesh unchanged. -/
def idLib : RepairLib :=
  ⟨fun m => some m, fun m => some m, fun m => some m, fun m => some m,
   fun m => some m, fun m => some m, fun m => some m⟩

/-- A behaviour in which only `trimesh.repair.fix_normals` raises. -/
def failNormalsLib : RepairLib := { idLib with fix_normals := fun _ => none }

/-- A behaviour in which every repair call raises. -/
def allFailLib : RepairLib :=
  ⟨fun _ => none, fun _ => none, fun _ => none, fun _ => none,
   fun _ => none, fun _ => none, fun _ => none⟩

/-! ## Bounding-box and centroid lemmas -/

theorem foldl_min_map_mul (c : ℚ) (hc : 0 ≤ c) (a : ℚ) (l : List ℚ) :
    (l.map (fun q => c * q)).foldl min (c * a) = c * l.foldl min a := by
  induction l generalizing a with
  | nil => rfl
  | cons b l ih =>
    simp only [List.map_cons, List.foldl_cons]
    rw [← mul_min_of_nonneg _ _ hc, ih]

theorem foldl_max_map_mul (c : ℚ) (hc : 0 ≤ c) (a : ℚ) (l : List ℚ) :
    (l.map (fun q => c * q)).foldl max (c * a) = c * l.foldl max a := by
  induction l generalizing a with
  | nil => rfl
  | cons b l ih =>
    simp only [List.map_cons, List.foldl_cons]
    rw [← mul_max_of_nonneg _ _ hc, ih]

theorem foldl_min_map_add (t a : ℚ) (l : List ℚ) :
    (l.map (fun q => q + t)).foldl min (a + t) = l.foldl min a + t := by
  induction l generalizing a with
  | nil => rfl
  | cons b l ih =>
    simp only [List.map_cons, List.foldl_cons]
    rw [min_add_add_right, ih]

theorem foldl_max_map_add (t a : ℚ) (l : List ℚ) :
    (l.map (fun q => q + t)).foldl max (a + t) = l.foldl max a + t := by
  induction l generalizing a with
  | nil => rfl
  | cons b l ih =>
    simp only [List.map_cons, List.foldl_cons]
    rw [max_add_add_right, ih]

theorem listMin_map_mul (c : ℚ) (hc : 0 ≤ c) (l : List ℚ) :
    listMin (l.map (fun q => c * q)) = c * listMin l := by
  cases l with
  | nil => simp [listMin]
  | cons a l => exact foldl_min_map_mul c hc a l

theorem listMax_map_mul (c : ℚ) (hc : 0 ≤ c) (l : List ℚ) :
    listMax (l.map (fun q => c * q)) = c * listMax l := by
  cases l with
  | nil => simp [listMax]
  | cons a l => exact foldl_max_map_mul c hc a l

theorem listMin_map_add (t : ℚ) (l : List ℚ) (h : l ≠ []) :
    listMin (l.map (fun q => q + t)) = listMin l + t := by
  cases l with
  | nil => exact absurd rfl h
  | cons a l => exact foldl_min_map_add t a l

theorem listMax_map_add (t : ℚ) (l : List ℚ) (h : l ≠ []) :
    listMax (l.map (fun q => q + t)) = listMax l + t := by
  cases l with
  | nil => exact absurd rfl h
  | cons a l => exact foldl_max_map_add t a l

theorem verts_applyScale (m : Mesh) (c : ℚ) (f : Vec3 → ℚ)
    (hf : ∀ v : Vec3, f ⟨c * v.x, c * v.y, c * v.z⟩ = c * f v) :
    (applyScale m c).vertices.map f = (m.vertices.map f).map (fun q => c * q) := by
  simp only [applyScale, List.map_map]
  congr 1
  funext v
  exact hf v

theorem verts_translate (m : Mesh) (t : Vec3) (f : Vec3 → ℚ) (s : ℚ)
    (hf : ∀ v : Vec3, f ⟨v.x + t.x, v.y + t.y, v.z + t.z⟩ = f v + s) :
    (translate m t).vertices.map f = (m.vertices.map f).map (fun q => q + s) := by
  simp only [translate, List.map_map]
  congr 1
  funext v
  exact hf v

theorem extents_applyScale (m : Mesh) (c : ℚ) (hc : 0 ≤ c) :
    extents (applyScale m c) =
      ⟨c * (extents m).x, c * (extents m).y, c * (extents m).z⟩ := by
  unfold extents extentsOf hiCorner loCorner
  rw [verts_applyScale m c Vec3.x (fun v => rfl),
      verts_applyScale m c Vec3.y (fun v => rfl),
      verts_applyScale m c Vec3.z (fun v => rfl),
      listMin_map_mul c hc, listMax_map_mul c hc,
      listMin_map_mul c hc, listMax_map_mul c hc,
      listMin_map_mul c hc, listMax_map_mul c hc]
  ext <;> simp <;> ring

theorem vertices_translate_ne_nil (m : Mesh) (t : Vec3) (h : m.vertices ≠ []) :
    (translate m t).vertices ≠ [] := by
  simpa [translate] using h

theorem extents_translate (m : Mesh) (t : Vec3) (h : m.vertices ≠ []) :
    extents (translate m t) = extents m := by
  have hx : m.vertices.map Vec3.x ≠ [] := by simpa using h
  have hy : m.vertices.map Vec3.y ≠ [] := by simpa using h
  have hz : m.vertices.map Vec3.z ≠ [] := by simpa using h
  unfold extents extentsOf hiCorner loCorner
  rw [verts_translate m t Vec3.x t.x (fun v => rfl),
      verts_translate m t Vec3.y t.y (fun v => rfl),
      verts_translate m t Vec3.z t.z (fun v => rfl),
      listMin_map_add _ _ hx, listMax_map_add _ _ hx,
      listMin_map_add _ _ hy, listMax_map_add _ _ hy,
      listMin_map_add _ _ hz, listMax_map_add _ _ hz]
  ext <;> simp

theorem maxDim_applyScale (m : Mesh) (c : ℚ) (hc : 0 ≤ c) :
    maxDim (applyScale m c) = c * maxDim m := by
  unfold maxDim
  rw [extents_applyScale m c hc]
  simp only [mul_max_of_nonneg _ _ hc]

theorem maxDim_translate (m : Mesh) (t : Vec3) (h : m.vertices ≠ []) :
    maxDim (translate m t) = maxDim m := by
  unfold maxDim
  rw [extents_translate m t h]

theorem sum_map_add_const (c : ℚ) (l : List ℚ) :
    (l.map (fun q => q + c)).sum = l.sum + l.length * c := by
  induction l with
  | nil => simp
  | cons a l ih =>
    simp only [List.map_cons, List.sum_cons, List.length_cons, ih]
    push_cast
    ring

theorem centroid_translate (m : Mesh) (t : Vec3) (h : m.vertices ≠ []) :
    centroid (translate m t) =
      ⟨(centroid m).x + t.x, (centroid m).y + t.y, (centroid m).z + t.z⟩ := by
  have hn : (m.vertices.length : ℚ) ≠ 0 := by
    exact_mod_cast Nat.cast_ne_zero.mpr (fun h0 => h (List.length_eq_zero.mp h0))
  have hlen : (translate m t).vertices.length = m.vertices.length := by
    simp [translate]
  unfold centroid
  rw [hlen,
      verts_translate m t Vec3.x t.x (fun v => rfl),
      verts_translate m t Vec3.y t.y (fun v => rfl),
      verts_translate m t Vec3.z t.z (fun v => rfl)]
  ext <;> simp only [sum_map_add_const, List.length_map] <;>
    rw [add_div, mul_div_cancel_left₀ _ hn]

theorem vertices_applyScale_ne_nil (m : Mesh) (c : ℚ) (h : m.vertices ≠ []) :
    (applyScale m c).vertices ≠ [] := by
  simpa [applyScale] using h

theorem maxDim_nil (m : Mesh) (h : m.vertices = []) : maxDim m = 0 := by
  simp [maxDim, extents, extentsOf, hiCorner, loCorner, h, listMin, listMax]

theorem vertices_scaleStep_ne_nil (m : Mesh) (h : m.vertices ≠ []) :
    (scaleStep m).vertices ≠ [] := by
  unfold scaleStep
  split
  · exact vertices_applyScale_ne_nil m _ h
  · exact h

/-! ## Claim theorems -/

/-- **C3** — Scale invariant: for every mesh whose bounding box has a
strictly positive maximum extent, after the normalization of
`_convert_to_stl_sync` (uniform scale by `50 / max_dim`, then centering)
the maximum bounding-box extent equals exactly 50 length units. -/
theorem normalize_maxDim_eq_fifty (m : Mesh) (h : 0 < maxDim m) :
    maxDim (normalize m) = 50 := by
  have hne : m.vertices ≠ [] := by
    intro h0
    rw [maxDim_nil m h0] at h
    exact lt_irrefl 0 h
  have hc : (0 : ℚ) ≤ 50 / maxDim m := le_of_lt (div_pos (by norm_num) h)
  have hs : scaleStep m = applyScale m (50 / maxDim m) := if_pos h
  unfold normalize
  rw [hs, maxDim_translate _ _ (vertices_applyScale_ne_nil m _ hne),
      maxDim_applyScale m _ hc, div_mul_cancel₀ _ (ne_of_gt h)]

/-- Witness for C3 at a concrete segment mesh of largest extent 5. -/
theorem normalize_maxDim_witness :
    0 < maxDim segMesh ∧ maxDim (normalize segMesh) = 50 :=
  ⟨by norm_num [maxDim, extents, extentsOf, hiCorner, loCorner, listMin, listMax, segMesh],
   normalize_maxDim_eq_fifty segMesh
     (by norm_num [maxDim, extents, extentsOf, hiCorner, loCorner, listMin, listMax, segMesh])⟩

/-- **C4** — Centering invariant: for every mesh with a nonempty vertex
buffer, after the normalization of `_convert_to_stl_sync` (every vertex
translated by minus the centroid) the centroid of the result is exactly
the origin. -/
theorem normalize_centroid_eq_origin (m : Mesh) (h : m.vertices ≠ []) :
    centroid (normalize m) = ⟨0, 0, 0⟩ := by
  unfold normalize
  rw [centroid_translate _ _ (vertices_scaleStep_ne_nil m h)]
  ext <;> simp [vneg]

/-- Witness for C4 at a concrete segment mesh. -/
theorem normalize_centroid_witness :
    segMesh.vertices ≠ [] ∧ centroid (normalize segMesh) = ⟨0, 0, 0⟩ :=
  ⟨by simp [segMesh], normalize_centroid_eq_origin segMesh (by simp [segMesh])⟩

/-- **C5** — Degenerate input: when the bounding box has zero maximum
extent, `_convert_to_stl_sync` skips the scaling step (no division by
zero is attempted), does not raise, and still applies the centering
translation to the mesh it serializes. -/
theorem degenerate_skips_scaling (m : Mesh) (h : maxDim m = 0) :
    scaleStep m = m ∧
    convert_to_stl_sync (Loaded.single m) =
      Except.ok (translate m (vneg (centroid m))) := by
  have hs : scaleStep m = m := by
    unfold scaleStep
    rw [h]
    simp
  exact ⟨hs, by simp only [convert_to_stl_sync, normalize, hs]⟩

/-- Witness for C5 at a concrete one-point mesh. -/
theorem degenerate_skips_scaling_witness :
    maxDim pointMesh = 0 ∧
    convert_to_stl_sync (Loaded.single pointMesh) =
      Except.ok (translate pointMesh (vneg (centroid pointMesh))) :=
  ⟨by norm_num [maxDim, extents, extentsOf, hiCorner, loCorner, listMin, listMax, pointMesh],
   (degenerate_skips_scaling pointMesh
     (by norm_num [maxDim, extents, extentsOf, hiCorner, loCorner, listMin, listMax, pointMesh])).2⟩

/-- **C6** — Empty scene: when the parsed input is a multi-object scene
none of whose sub-objects is a pure triangulated surface, the conversion
fails with the empty-scene error surfaced to the caller and produces no
output file. -/
theorem empty_scene_fails (gs : List Geometry) (h : validMeshes gs = []) :
    convert_to_stl_sync (Loaded.scene gs) = Except.error ConvError.emptySceneError
    ∧ outputOf (convert_to_stl_sync (Loaded.scene gs)) = none := by
  constructor
  · simp only [convert_to_stl_sync, h]
  · simp only [convert_to_stl_sync, h, outputOf]

/-- Witness for C6 at a concrete scene holding a single non-mesh
sub-object. -/
theorem empty_scene_fails_witness :
    validMeshes [Geometry.other] = [] ∧
    convert_to_stl_sync (Loaded.scene [Geometry.other]) =
      Except.error ConvError.emptySceneError :=
  ⟨rfl, (empty_scene_fails [Geometry.other] rfl).1⟩

/-- **C7** — Scene flattening: a scene holding exactly two valid
triangulated sub-meshes flattens to a mesh with `f1 + f2` faces in which
every face index is strictly below the combined vertex count. -/
theorem scene_flattening_two_meshes (m1 m2 : Mesh)
    (h1 : facesValid m1 = true) (h2 : facesValid m2 = true) :
    validMeshes [Geometry.triMesh m1, Geometry.triMesh m2] = [m1, m2]
    ∧ (concatenate [m1, m2]).faces.length = m1.faces.length + m2.faces.length
    ∧ facesValid (concatenate [m1, m2]) = true := by
  refine ⟨rfl, ?_, ?_⟩
  · simp [concatenate]
  · simp only [facesValid, List.all_eq_true, decide_eq_true_eq, Bool.and_eq_true] at h1 h2 ⊢
    intro f hf
    simp only [concatenate, List.map_nil, List.append_nil, List.mem_append,
      List.mem_map] at hf
    rcases hf with hf | ⟨g, hg, rfl⟩
    · have := h1 f hf
      simp only [concatenate, List.map_nil, List.append_nil, List.length_append]
      omega
    · have := h2 g hg
      simp only [concatenate, List.map_nil, List.append_nil, List.length_append]
      omega

/-- Witness for C7 at two concrete triangulated meshes (one and two
faces). -/
theorem scene_flattening_witness :
    facesValid triA = true ∧ facesValid quadB = true ∧
    (concatenate [triA, quadB]).faces.length = triA.faces.length + quadB.faces.length :=
  ⟨by decide, by decide,
   (scene_flattening_two_meshes triA quadB (by decide) (by decide)).2.1⟩

/-- **C8** — Undefined volume: the printability report carries the mesh
volume exactly when the mesh is watertight; on a non-watertight mesh the
volume field is the explicit `none` sentinel, never the number 0. -/
theorem report_volume_iff_watertight (m : Mesh) :
    ((check_printability m).volume_mm3 = some (volume m) ↔ is_watertight m = true)
    ∧ (is_watertight m = false → (check_printability m).volume_mm3 = none)
    ∧ (is_watertight m = false → (check_printability m).volume_mm3 ≠ some 0) := by
  cases h : is_watertight m <;>
    simp [check_printability, h]

/-- Witness for C8 at the open box (a unit cube missing one triangle):
not watertight, so its reported volume is `none`. -/
theorem report_volume_witness :
    is_watertight openBox = false ∧ (check_printability openBox).volume_mm3 = none :=
  ⟨by decide, (report_volume_iff_watertight openBox).2.1 (by decide)⟩

/-- **C9** — `scale_model` round trip: applying `scale_model` with 200 and
then with 50 returns the mesh — in particular its bounding-box
dimensions — to exactly its original state (100% × 200% × 50% = 100%). -/
theorem scale_model_roundtrip (m : Mesh) :
    scale_model (scale_model m 200) 50 = m
    ∧ extents (scale_model (scale_model m 200) 50) = extents m := by
  have hm : scale_model (scale_model m 200) 50 = m := by
    cases m with
    | mk vs fs =>
      simp only [scale_model, applyScale]
      norm_num
      have : ((fun v : Vec3 => (⟨(1 / 2) * v.x, (1 / 2) * v.y, (1 / 2) * v.z⟩ : Vec3)) ∘
          fun v : Vec3 => (⟨2 * v.x, 2 * v.y, 2 * v.z⟩ : Vec3)) = id := by
        funext v
        ext <;> simp
      rw [this, List.map_id]
  exact ⟨hm, by rw [hm]⟩

/-- **C10** — `scale_model` validates nothing: for every rational
`scale_percent`, including 0 and negative values, every vertex coordinate
is multiplied by `scale_percent / 100` and the result is re-serialized
(the function is total — no exception path exists); with 0 the mesh
collapses to the origin and with −100 it is mirrored through the
origin. -/
theorem scale_model_no_validation (m : Mesh) (p : ℚ) :
    (scale_model m p).vertices =
      m.vertices.map (fun v => ⟨p / 100 * v.x, p / 100 * v.y, p / 100 * v.z⟩)
    ∧ (scale_model m 0).vertices = m.vertices.map (fun _ => ⟨0, 0, 0⟩)
    ∧ (scale_model m (-100)).vertices =
        m.vertices.map (fun v => ⟨-v.x, -v.y, -v.z⟩) := by
  refine ⟨rfl, ?_, ?_⟩
  · simp [scale_model, applyScale]
  · have h : (-100 : ℚ) / 100 = -1 := by norm_num
    simp [scale_model, applyScale, h]

/-! ## Repair-pipeline lemmas -/

theorem watertight_check_mem_block2 (lib : RepairLib) (m : Mesh) :
    Step.watertight_check ∈ (repairBlock2 lib m).2 := by
  by_cases h : is_watertight m
  · simp [repairBlock2, h]
  · cases hf : lib.fill_holes m <;> simp [repairBlock2, h, hf]

theorem process_mem_block3 (lib : RepairLib) (m : Mesh) :
    Step.process ∈ (repairBlock3 lib m).2 := by
  cases hp : lib.process m with
  | some m1 => simp [repairBlock3, hp]
  | none =>
    cases hm : lib.merge_vertices m with
    | none => simp [repairBlock3, hp, hm]
    | some m1 => cases hu : lib.update_faces m1 <;> simp [repairBlock3, hp, hm, hu]

theorem optimize_tri_ran (lib : RepairLib) (m : Mesh) :
    (optimize_mesh_sync lib (LoadedStl.tri m)).ran =
      (repairBlock1 lib m).2
        ++ (repairBlock2 lib (repairBlock1 lib m).1).2
        ++ (repairBlock3 lib (repairBlock2 lib (repairBlock1 lib m).1).1).2 := rfl

/-- **C1 (counterexample)** — The claim "repair always re-serializes and
never raises, for every input file" fails on the code: a file that loads
as a non-`Trimesh` object hits the early `return` at line 110 and is
never re-exported, and a file `trimesh.load` cannot read raises out of
`_optimize_mesh_sync`. -/
theorem optimize_not_trimesh_skips_export :
    (optimize_mesh_sync idLib LoadedStl.notTri).exported = none
    ∧ (optimize_mesh_sync idLib LoadedStl.notTri).raised = false
    ∧ (optimize_mesh_sync idLib LoadedStl.loadFail).raised = true :=
  ⟨rfl, rfl, rfl⟩

/-- **C1 (amended)** — Whenever the file loads as a `Trimesh`, the repair
operation raises nothing to its caller and always re-serializes to the
same STL path exactly the state the mesh reached, no matter which repair
calls fail; a non-`Trimesh` load returns without raising and without
re-serializing. -/
theorem optimize_tri_always_exports (lib : RepairLib) (m : Mesh) :
    (optimize_mesh_sync lib (LoadedStl.tri m)).raised = false
    ∧ (optimize_mesh_sync lib (LoadedStl.tri m)).exported =
        some (repairBlock3 lib (repairBlock2 lib (repairBlock1 lib m).1).1).1
    ∧ (optimize_mesh_sync lib LoadedStl.notTri).raised = false
    ∧ (optimize_mesh_sync lib LoadedStl.notTri).exported = none :=
  ⟨rfl, rfl, rfl, rfl⟩

/-- **C2 (counterexample)** — The claim "a failure in one repair sub-step
does not cause any other step to be skipped" fails on the code: the three
orientation fixes share one `try` block (lines 113–118), so when
`fix_normals` raises, neither `fix_inversion` nor `fix_winding` is ever
executed. -/
theorem winding_skipped_when_normals_fail :
    Step.fix_normals ∈ (optimize_mesh_sync failNormalsLib (LoadedStl.tri emptyMesh)).ran
    ∧ Step.fix_inversion ∉ (optimize_mesh_sync failNormalsLib (LoadedStl.tri emptyMesh)).ran
    ∧ Step.fix_winding ∉ (optimize_mesh_sync failNormalsLib (LoadedStl.tri emptyMesh)).ran := by
  decide

/-- **C2 (amended)** — Every failing repair call leaves the mesh exactly
as it was before that call, and a failure never aborts the pipeline
across `try`-block boundaries: whatever happens in the orientation block,
the watertightness check and the cleanup `process` call still execute,
a `fill_holes` failure leaves the mesh unchanged, and a `process` failure
falls back to `merge_vertices`.  (Within the first block, however, a
failure skips the rest of that same block — see the counterexample.) -/
theorem repair_steps_best_effort (lib : RepairLib) (m : Mesh) :
    Step.watertight_check ∈ (optimize_mesh_sync lib (LoadedStl.tri m)).ran
    ∧ Step.process ∈ (optimize_mesh_sync lib (LoadedStl.tri m)).ran
    ∧ (lib.fix_normals m = none → (repairBlock1 lib m).1 = m)
    ∧ (∀ m1, lib.fix_normals m = some m1 → lib.fix_inversion m1 = none →
        (repairBlock1 lib m).1 = m1)
    ∧ (∀ m1, lib.fill_holes m1 = none → (repairBlock2 lib m1).1 = m1)
    ∧ (∀ m1, lib.process m1 = none → lib.merge_vertices m1 = none →
        (repairBlock3 lib m1).1 = m1)
    ∧ (∀ m1 m2, lib.process m1 = none → lib.merge_vertices m1 = some m2 →
        lib.update_faces m2 = none → (repairBlock3 lib m1).1 = m2) := by
  refine ⟨?_, ?_, ?_, ?_, ?_, ?_, ?_⟩
  · rw [optimize_tri_ran]
    exact List.mem_append.mpr
      (Or.inl (List.mem_append.mpr (Or.inr (watertight_check_mem_block2 _ _))))
  · rw [optimize_tri_ran]
    exact List.mem_append.mpr (Or.inr (process_mem_block3 _ _))
  · intro h
    simp [repairBlock1, h]
  · intro m1 h1 h2
    simp [repairBlock1, h1, h2]
  · intro m1 h
    by_cases hw : is_watertight m1
    · simp [repairBlock2, hw]
    · simp [repairBlock2, hw, h]
  · intro m1 hp hm
    simp [repairBlock3, hp, hm]
  · intro m1 m2 hp hm hu
    simp [repairBlock3, hp, hm, hu]

/-- Witness for C2 (amended): with a behaviour in which every repair call
raises, on a concrete mesh, the cleanup block still executes and every
block leaves the mesh untouched. -/
theorem repair_steps_best_effort_witness :
    Step.process ∈ (optimize_mesh_sync allFailLib (LoadedStl.tri pointMesh)).ran
    ∧ (repairBlock1 allFailLib pointMesh).1 = pointMesh
    ∧ (repairBlock2 allFailLib pointMesh).1 = pointMesh
    ∧ (repairBlock3 allFailLib pointMesh).1 = pointMesh :=
  ⟨(repair_steps_best_effort allFailLib pointMesh).2.1,
   (repair_steps_best_effort allFailLib pointMesh).2.2.1 rfl,
   (repair_steps_best_effort allFailLib pointMesh).2.2.2.2.1 pointMesh rfl,
   (repair_steps_best_effort allFailLib pointMesh).2.2.2.2.2.1 pointMesh rfl rfl⟩

end MeshService
